import Mathlib

/-!
Verification of the key-management and session-unlock core of PassMan,
a CLI password vault.  The Python sources (`security.py`, `config.py`,
`password_generator.py`, `cli.py`) are shallowly embedded as pure Lean
functions over byte lists; randomness (`os.urandom`, `secrets.choice`)
and clock reads become explicit parameters, and the filesystem becomes
explicit state values.  `db.py` and `session.py` are imported by
`cli.py` but are not among the sources; the functions taken from them
are modelled from the specification and marked as such.
-/

namespace PassMan

/-- Byte strings are lists of naturals; each entry is a byte value. -/
abbrev Bytes := List Nat

/-- Truncation to a 32-bit word, the word size of SHA-256 arithmetic. -/
def w32 (x : Nat) : Nat := x % 4294967296

/-- Right rotation of a 32-bit word by `n` bits. -/
def rotr (n x : Nat) : Nat := w32 ((x >>> n) ||| (x <<< (32 - n)))

/-- Logical right shift. -/
def shr (n x : Nat) : Nat := x >>> n

/-- SHA-256 big sigma 0. -/
def bsig0 (x : Nat) : Nat := rotr 2 x ^^^ rotr 13 x ^^^ rotr 22 x

/-- SHA-256 big sigma 1. -/
def bsig1 (x : Nat) : Nat := rotr 6 x ^^^ rotr 11 x ^^^ rotr 25 x

/-- SHA-256 small sigma 0. -/
def ssig0 (x : Nat) : Nat := rotr 7 x ^^^ rotr 18 x ^^^ shr 3 x

/-- SHA-256 small sigma 1. -/
def ssig1 (x : Nat) : Nat := rotr 17 x ^^^ rotr 19 x ^^^ shr 10 x

/-- SHA-256 choice function: bits of `x` select between `y` and `z`. -/
def ch (x y z : Nat) : Nat := (x &&& y) ^^^ ((x ^^^ 4294967295) &&& z)

/-- SHA-256 majority function. -/
def maj (x y z : Nat) : Nat := (x &&& y) ^^^ (x &&& z) ^^^ (y &&& z)

/-- Big-endian serialization of `x` into `n` bytes. -/
def natToBytesBE (n x : Nat) : Bytes :=
  (List.range n).map (fun i => (x >>> (8 * (n - 1 - i))) % 256)

/-- Big-endian word from a byte list. -/
def bytesToWordBE (l : Bytes) : Nat := l.foldl (fun acc b => acc * 256 + b) 0

/-- The 64 SHA-256 round constants, written in decimal. -/
def sha256K : List Nat :=
  [1116352408, 1899447441, 3049323471, 3921009573, 961987163,
   1508970993, 2453635748, 2870763221, 3624381080, 310598401,
   607225278, 1426881987, 1925078388, 2162078206, 2614888103,
   3248222580, 3835390401, 4022224774, 264347078, 604807628,
   770255983, 1249150122, 1555081692, 1996064986, 2554220882,
   2821834349, 2952996808, 3210313671, 3336571891, 3584528711,
   113926993, 338241895, 666307205, 773529912, 1294757372,
   1396182291, 1695183700, 1986661051, 2177026350, 2456956037,
   2730485921, 2820302411, 3259730800, 3345764771, 3516065817,
   3600352804, 4094571909, 275423344, 430227734, 506948616,
   659060556, 883997877, 958139571, 1322822218, 1537002063,
   1747873779, 1955562222, 2024104815, 2227730452, 2361852424,
   2428436474, 2756734187, 3204031479, 3329325298]

/-- The SHA-256 working state: eight 32-bit words. -/
structure Sha256St where
  a : Nat
  b : Nat
  c : Nat
  d : Nat
  e : Nat
  f : Nat
  g : Nat
  h : Nat

/-- The SHA-256 initial hash value, written in decimal. -/
def sha256Init : Sha256St :=
  { a := 1779033703, b := 3144134277, c := 1013904242, d := 2773480762,
    e := 1359893119, f := 2600822924, g := 528734635, h := 1541459225 }

/-- Pad a message to a multiple of 64 bytes: a 0x80 byte, zeros, then the
bit length in 8 big-endian bytes. -/
def padMessage (msg : Bytes) : Bytes :=
  let L := msg.length
  let z := (119 - L % 64) % 64
  msg ++ [0x80] ++ List.replicate z 0 ++ natToBytesBE 8 (8 * L)

/-- Split a byte list into 64-byte blocks. -/
def chunks64 (l : Bytes) : List Bytes :=
  if h : l = [] then [] else l.take 64 :: chunks64 (l.drop 64)
termination_by l.length
decreasing_by
  simp only [List.length_drop]
  exact Nat.sub_lt (List.length_pos.mpr h) (by decide)

/-- The sixteen 32-bit message words of one 64-byte block. -/
def wordsOfBlock (b : Bytes) : List Nat :=
  (List.range 16).map (fun i => bytesToWordBE ((b.drop (4 * i)).take 4))

/-- Extend the 16 message words to the 64-entry message schedule. -/
def schedule (ws : List Nat) : List Nat :=
  (List.range 48).foldl
    (fun acc _ =>
      let t := acc.length
      acc ++ [w32 (ssig1 (acc.getD (t - 2) 0) + acc.getD (t - 7) 0 +
                   ssig0 (acc.getD (t - 15) 0) + acc.getD (t - 16) 0)])
    ws

/-- One SHA-256 compression round. -/
def sha256Round (s : Sha256St) (kt wt : Nat) : Sha256St :=
  let t1 := s.h + bsig1 s.e + ch s.e s.f s.g + kt + wt
  let t2 := bsig0 s.a + maj s.a s.b s.c
  { a := w32 (t1 + t2), b := s.a, c := s.b, d := s.c,
    e := w32 (s.d + t1), f := s.e, g := s.f, h := s.g }

/-- Compress one 64-byte block into the running state. -/
def compressBlock (s0 : Sha256St) (block : Bytes) : Sha256St :=
  let ws := schedule (wordsOfBlock block)
  let s := (List.range 64).foldl
    (fun s t => sha256Round s (sha256K.getD t 0) (ws.getD t 0)) s0
  { a := w32 (s0.a + s.a), b := w32 (s0.b + s.b), c := w32 (s0.c + s.c),
    d := w32 (s0.d + s.d), e := w32 (s0.e + s.e), f := w32 (s0.f + s.f),
    g := w32 (s0.g + s.g), h := w32 (s0.h + s.h) }

/-- SHA-256 of a byte string, as 32 output bytes. -/
def sha256 (msg : Bytes) : Bytes :=
  let s := (chunks64 (padMessage msg)).foldl compressBlock sha256Init
  natToBytesBE 4 s.a ++ natToBytesBE 4 s.b ++ natToBytesBE 4 s.c ++ natToBytesBE 4 s.d ++
    natToBytesBE 4 s.e ++ natToBytesBE 4 s.f ++ natToBytesBE 4 s.g ++ natToBytesBE 4 s.h

/-- HMAC-SHA256: pad or hash the key to the 64-byte block size, then the
nested inner/outer hash with the 0x36 and 0x5c pads. -/
def hmacSha256 (key msg : Bytes) : Bytes :=
  let k0 := if 64 < key.length then sha256 key else key
  let kp := k0 ++ List.replicate (64 - k0.length) 0
  sha256 ((kp.map (fun b => b ^^^ 0x5c)) ++ sha256 ((kp.map (fun b => b ^^^ 0x36)) ++ msg))

/-- Pointwise xor of two byte strings, truncated to the shorter one. -/
def xorBytes (a b : Bytes) : Bytes := List.zipWith (· ^^^ ·) a b

/-- The xor-accumulation loop of PBKDF2: given the current `u` and the
running xor `acc`, apply the PRF `n` more times. -/
def pbkdf2Inner (pwd : Bytes) : Nat → Bytes → Bytes → Bytes
  | 0, _, acc => acc
  | n + 1, u, acc =>
      let u' := hmacSha256 pwd u
      pbkdf2Inner pwd n u' (xorBytes acc u')

/-- One output block of PBKDF2-HMAC-SHA256: `U1 = PRF(pwd, salt ∥ i)`,
then `iters − 1` further PRF applications xored together. -/
def pbkdf2F (pwd salt : Bytes) (iters blockIndex : Nat) : Bytes :=
  let u1 := hmacSha256 pwd (salt ++ natToBytesBE 4 blockIndex)
  pbkdf2Inner pwd (iters - 1) u1 u1

/-- Concatenation of the first `n` PBKDF2 blocks. -/
def pbkdf2Blocks (pwd salt : Bytes) (iters : Nat) : Nat → Bytes
  | 0 => []
  | n + 1 => pbkdf2Blocks pwd salt iters n ++ pbkdf2F pwd salt iters (n + 1)

/-- PBKDF2-HMAC-SHA256: enough blocks to cover `dkLen` bytes, truncated. -/
def pbkdf2HmacSha256 (pwd salt : Bytes) (iters dkLen : Nat) : Bytes :=
  (pbkdf2Blocks pwd salt iters ((dkLen + 31) / 32)).take dkLen

/-- The URL-safe base64 alphabet `A-Z a-z 0-9 - _`, as byte values. -/
def b64urlAlphabet : Bytes :=
  ((List.range 26).map (fun i => 65 + i)) ++ ((List.range 26).map (fun i => 97 + i)) ++
    ((List.range 10).map (fun i => 48 + i)) ++ [45, 95]

/-- One base64 output character. -/
def b64Char (n : Nat) : Nat := b64urlAlphabet.getD n 65

/-- `base64.urlsafe_b64encode`: encode 3-byte groups into 4 characters,
padding a final partial group with `=` (byte 61). -/
def urlsafe_b64encode : Bytes → Bytes
  | [] => []
  | [a] => [b64Char (a / 4), b64Char (a % 4 * 16), 61, 61]
  | [a, b] => [b64Char (a / 4), b64Char (a % 4 * 16 + b / 16), b64Char (b % 16 * 4), 61]
  | a :: b :: c :: rest =>
      [b64Char (a / 4), b64Char (a % 4 * 16 + b / 16),
       b64Char (b % 16 * 4 + c / 64), b64Char (c % 64)] ++ urlsafe_b64encode rest

/-- The KDF configuration built by `security.key_derivation_function`:
PBKDF2-HMAC-SHA256, output length 32, fixed salt, 1 200 000 iterations. -/
structure PBKDF2HMAC where
  salt : Bytes
  outLength : Nat
  iterations : Nat

/-- `security.key_derivation_function(salt)`. -/
def key_derivation_function (salt : Bytes) : PBKDF2HMAC :=
  { salt := salt, outLength := 32, iterations := 1200000 }

/-- `kdf.derive(key_material)` of the configured PBKDF2. -/
def PBKDF2HMAC.derive (kdf : PBKDF2HMAC) (keyMaterial : Bytes) : Bytes :=
  pbkdf2HmacSha256 keyMaterial kdf.salt kdf.iterations kdf.outLength

/-- `security.generate_derived_key(kdf, master_password)`: the base64
url-safe encoding of the derived 32-byte key. -/
def generate_derived_key (kdf : PBKDF2HMAC) (master_password : Bytes) : Bytes :=
  urlsafe_b64encode (kdf.derive master_password)

/-- Failure modes of authenticated decryption. -/
inductive CryptoError where
  | AuthenticationFailure
deriving DecidableEq

/-- Modelled from the spec: the self-describing wrapped-PEK token produced
by `security.generate_and_encrypt_pek` (absent from the sources; only its
caller in `cli.py` is available).  It embeds a random nonce, the
ciphertext, and an integrity tag. -/
structure WrappedPEK where
  nonce : Bytes
  ct : Bytes
  tag : Bytes
deriving DecidableEq

/-- Modelled from the spec: one keystream byte of the envelope cipher,
derived from the KEK and the nonce. -/
def keystreamByte (kek nonce : Bytes) (i : Nat) : Nat :=
  (sha256 (kek ++ nonce ++ natToBytesBE 4 i)).headD 0

/-- Modelled from the spec: `n` keystream bytes. -/
def keystream (kek nonce : Bytes) (n : Nat) : Bytes :=
  (List.range n).map (keystreamByte kek nonce)

/-- Modelled from the spec: the integrity tag over nonce and ciphertext,
keyed by the KEK. -/
def macTag (kek nonce ct : Bytes) : Bytes := hmacSha256 kek (nonce ++ ct)

/-- Modelled from the spec: the wrapping step of
`security.generate_and_encrypt_pek` — authenticated encryption of the raw
PEK bytes under the KEK with a fresh nonce. -/
def wrapPEK (kek pek nonce : Bytes) : WrappedPEK :=
  let ct := xorBytes pek (keystream kek nonce pek.length)
  { nonce := nonce, ct := ct, tag := macTag kek nonce ct }

/-- Modelled from the spec: `security.retrieve_and_decrypt_pek`'s
authenticated decryption — verify the integrity tag, then decrypt; a tag
mismatch is `AuthenticationFailure`. -/
def unwrapPEK (kek : Bytes) (w : WrappedPEK) : Except CryptoError Bytes :=
  if macTag kek w.nonce w.ct = w.tag then
    Except.ok (xorBytes w.ct (keystream kek w.nonce w.ct.length))
  else
    Except.error CryptoError.AuthenticationFailure

/-- Modelled from the spec: the Option view used by `cli.login`, which
exits with status 1 when the PEK cannot be decrypted. -/
def retrieve_and_decrypt_pek (kek : Bytes) (w : WrappedPEK) : Option Bytes :=
  (unwrapPEK kek w).toOption

/-- `config.SESSION_TIMEOUT_SECONDS`. -/
def SESSION_TIMEOUT_SECONDS : Nat := 3600

/-- The persisted session record: raw PEK bytes plus issue timestamp. -/
structure SessionRecord where
  pek : Bytes
  issuedAt : Nat
deriving DecidableEq

/-- Modelled from the spec: `session.retrieve_session_pek` (absent from
the sources).  A missing file is absent; a record whose age reaches the
timeout is treated as absent. -/
def retrieve_session_pek (file : Option SessionRecord) (now : Nat) : Option Bytes :=
  match file with
  | none => none
  | some r => if SESSION_TIMEOUT_SECONDS ≤ now - r.issuedAt then none else some r.pek

/-- Modelled from the spec: `session.store_session_data` writes the PEK
and the current timestamp, overwriting any prior session. -/
def store_session_data (pek : Bytes) (now : Nat) : SessionRecord :=
  { pek := pek, issuedAt := now }

/-- Modelled from the spec: `session.clear_session_data` deletes the
record and reports whether one existed. -/
def clear_session_data (file : Option SessionRecord) : Option SessionRecord × Bool :=
  (none, file.isSome)

/-- `security.generate_salt_file`: the salt file slot before the call is
`saltFile`; `rnd` is the outcome of `os.urandom(16)`.  If the file exists
nothing happens, otherwise the random bytes are written. -/
def generate_salt_file (saltFile : Option Bytes) (rnd : Bytes) : Option Bytes :=
  match saltFile with
  | some s => some s
  | none => some rnd

/-- The filesystem states at the final salt path that a direct
`open(salt_file, "wb"); f.write(salt)` passes through: the open truncates
the file, then the bytes land in order, so an interruption after `k`
bytes leaves `take k` of the salt at the final path.  When the file
already exists no write happens. -/
def generate_salt_file_write_states (saltFile : Option Bytes) (rnd : Bytes) :
    List (Option Bytes) :=
  match saltFile with
  | some s => [some s]
  | none => (List.range (rnd.length + 1)).map (fun k => some (rnd.take k))

/-- One row of the `entries` table of `config.SQL_CREATE_TABLE`; the
`password` column holds ciphertext. -/
structure VaultEntry where
  service_name : String
  username : String
  password : String
  url : String
  note : String
  created_at : Nat
  updated_at : Nat
deriving DecidableEq

/-- The `entries` table as a list of rows. -/
abbrev Store := List VaultEntry

/-- Validation failures of the entry store. -/
inductive DBError where
  | DuplicateEntry
  | NotFound
deriving DecidableEq

/-- `db.validate_service_name` per `config.SQL_VALIDATE_SERVICE_NAME`:
whether a row with this service name exists. -/
def validate_service_name (store : Store) (name : String) : Bool :=
  store.any (fun e => e.service_name = name)

/-- Modelled from the spec: `db.add_entry` (db.py is absent from the
sources; the UNIQUE constraint is `config.SQL_CREATE_TABLE` and the
insert is `config.SQL_INSERT_ENTRY`).  Fails with `DuplicateEntry` when
the service name exists, otherwise inserts a row with
`created_at = updated_at = now`. -/
def add_entry (store : Store) (name user pw url note : String) (now : Nat) :
    Except DBError Store :=
  if validate_service_name store name then
    Except.error DBError.DuplicateEntry
  else
    Except.ok (store ++ [{ service_name := name, username := user, password := pw,
                           url := url, note := note, created_at := now, updated_at := now }])

/-- `db.update_entry` per `config.SQL_UPDATE_ENTRY`: set `password` and
`updated_at` on every row whose `service_name` matches, leaving every
other column and every other row untouched. -/
def update_entry (store : Store) (name pw : String) (now : Nat) : Store :=
  store.map (fun e =>
    if e.service_name = name then { e with password := pw, updated_at := now } else e)

/-- `string.ascii_lowercase`. -/
def ascii_lowercase : List Char := (List.range 26).map (fun i => Char.ofNat (97 + i))

/-- `string.ascii_uppercase`. -/
def ascii_uppercase : List Char := (List.range 26).map (fun i => Char.ofNat (65 + i))

/-- `string.ascii_letters`. -/
def ascii_letters : List Char := ascii_lowercase ++ ascii_uppercase

/-- `string.digits`. -/
def string_digits : List Char := (List.range 10).map (fun i => Char.ofNat (48 + i))

/-- `config.PASSWORD_SPECIAL_CHARS`. -/
def PASSWORD_SPECIAL_CHARS : List Char := ['!', '@', '#', '$', '%', '^', '&', '*']

/-- `config.PASSWORD_LENGTH`. -/
def PASSWORD_LENGTH : Nat := 20

/-- The candidate alphabet chosen by `password_generator`. -/
def alphabet (without_special_chars : Bool) : List Char :=
  if without_special_chars then ascii_letters ++ string_digits
  else ascii_letters ++ string_digits ++ PASSWORD_SPECIAL_CHARS

/-- The acceptance test of `password_generator`'s loop: a lowercase
letter, an uppercase letter, a special character, and at least three
digits must all be present. -/
def passwordOk (pw : List Char) : Bool :=
  pw.any (fun c => c.isLower) && pw.any (fun c => c.isUpper) &&
    PASSWORD_SPECIAL_CHARS.any (fun c => decide (c ∈ pw)) &&
    decide (3 ≤ (pw.filter (fun c => c.isDigit)).length)

/-- One loop iteration's candidate: `PASSWORD_LENGTH` draws by
`secrets.choice` from the alphabet, the random draws supplied by the
`picks` stream. -/
def passwordCandidate (without_special_chars : Bool) (picks : Nat → Nat) (t : Nat) :
    List Char :=
  (List.range PASSWORD_LENGTH).map (fun i =>
    (alphabet without_special_chars).getD
      (picks (t * PASSWORD_LENGTH + i) % (alphabet without_special_chars).length) 'a')

/-- `password_generator`'s `while True` loop, given `fuel` iterations:
returns the first candidate passing the acceptance test, or `none` when
no iteration within the fuel succeeds. -/
def password_generator_fuel (without_special_chars : Bool) (picks : Nat → Nat) :
    Nat → Nat → Option (List Char)
  | 0, _ => none
  | fuel + 1, t =>
      let pw := passwordCandidate without_special_chars picks t
      if passwordOk pw then some pw
      else password_generator_fuel without_special_chars picks fuel (t + 1)

/-- The subcommands of the `cli` group. -/
inductive Command where
  | login
  | logout
  | add
  | view
  | search
  | listEntries
  | update
  | delete
deriving DecidableEq

/-- The external world of one invocation: the three persisted files, the
clock, the random bytes the OS would supply, and the master password the
prompt would return. -/
structure Env where
  sessionFile : Option SessionRecord
  now : Nat
  saltFile : Option Bytes
  saltRandom : Bytes
  pekFile : Option WrappedPEK
  pekRandom : Bytes
  masterPassword : Bytes
  nonceRandom : Bytes

/-- What one invocation did: whether the master password was prompted,
whether the KDF ran, the PEK resolved for the invocation, the exit code
of an early `sys.exit`, the files after the call, and whether an
entry-store operation was allowed to proceed. -/
structure Trace where
  promptedMaster : Bool
  ranKdf : Bool
  ctxPek : Option Bytes
  exitCode : Option Nat
  sessionFileAfter : Option SessionRecord
  pekFileAfter : Option WrappedPEK
  ranStoreOp : Bool

/-- The `cli` group callback composed with one subcommand, from
`cli.py`: the callback resolves the session PEK via
`authenticate_from_session`; entry subcommands exit with status 1 when it
is absent; `login` always prompts, ensures the salt, derives the KEK and
unwraps (or first-time-generates) the PEK, then stores a session;
`logout` clears the session. -/
def cliInvoke (cmd : Command) (env : Env) : Trace :=
  let sessionPek := retrieve_session_pek env.sessionFile env.now
  match cmd with
  | Command.logout =>
      { promptedMaster := false, ranKdf := false, ctxPek := sessionPek,
        exitCode := none, sessionFileAfter := (clear_session_data env.sessionFile).1,
        pekFileAfter := env.pekFile, ranStoreOp := false }
  | Command.login =>
      let saltFile := generate_salt_file env.saltFile env.saltRandom
      let salt := saltFile.getD []
      let kdf := key_derivation_function salt
      let kek := generate_derived_key kdf env.masterPassword
      match env.pekFile with
      | none =>
          let pek := env.pekRandom
          { promptedMaster := true, ranKdf := true, ctxPek := some pek,
            exitCode := none,
            sessionFileAfter := some (store_session_data pek env.now),
            pekFileAfter := some (wrapPEK kek pek env.nonceRandom),
            ranStoreOp := false }
      | some w =>
          match retrieve_and_decrypt_pek kek w with
          | none =>
              { promptedMaster := true, ranKdf := true, ctxPek := none,
                exitCode := some 1, sessionFileAfter := env.sessionFile,
                pekFileAfter := env.pekFile, ranStoreOp := false }
          | some pek =>
              { promptedMaster := true, ranKdf := true, ctxPek := some pek,
                exitCode := none,
                sessionFileAfter := some (store_session_data pek env.now),
                pekFileAfter := env.pekFile, ranStoreOp := false }
  | _ =>
      match sessionPek with
      | none =>
          { promptedMaster := false, ranKdf := false, ctxPek := none,
            exitCode := some 1, sessionFileAfter := env.sessionFile,
            pekFileAfter := env.pekFile, ranStoreOp := false }
      | some pek =>
          { promptedMaster := false, ranKdf := false, ctxPek := some pek,
            exitCode := none, sessionFileAfter := env.sessionFile,
            pekFileAfter := env.pekFile, ranStoreOp := true }

/-- A two-row concrete store used by witnesses. -/
def demoStore : Store :=
  [{ service_name := "svc", username := "u", password := "old", url := "x", note := "y",
     created_at := 1, updated_at := 2 },
   { service_name := "other", username := "v", password := "q", url := "z", note := "w",
     created_at := 3, updated_at := 4 }]

/-- A concrete environment with no session file. -/
def envMissDemo : Env :=
  { sessionFile := none, now := 0, saltFile := none, saltRandom := [],
    pekFile := none, pekRandom := [], masterPassword := [], nonceRandom := [] }

/-- A concrete environment holding a fresh session. -/
def envHitDemo : Env :=
  { sessionFile := some { pek := [1, 2, 3], issuedAt := 0 }, now := 10,
    saltFile := some [9], saltRandom := [], pekFile := none, pekRandom := [],
    masterPassword := [], nonceRandom := [] }

theorem natToBytesBE_length (n x : Nat) : (natToBytesBE n x).length = n := by
  simp [natToBytesBE]

theorem sha256_length (msg : Bytes) : (sha256 msg).length = 32 := by
  simp [sha256, natToBytesBE_length]

theorem hmacSha256_length (key msg : Bytes) : (hmacSha256 key msg).length = 32 := by
  simp [hmacSha256, sha256_length]

theorem xorBytes_length (a b : Bytes) :
    (xorBytes a b).length = min a.length b.length := by
  simp [xorBytes]

theorem xorBytes_cancel (a : Bytes) :
    ∀ b : Bytes, a.length ≤ b.length → xorBytes (xorBytes a b) b = a := by
  induction a with
  | nil => intro b _; simp [xorBytes]
  | cons x xs ih =>
      intro b hb
      cases b with
      | nil => simp at hb
      | cons y ys =>
          simp only [xorBytes, List.zipWith_cons_cons] at *
          rw [Nat.xor_assoc, Nat.xor_self, Nat.xor_zero,
            ih ys (Nat.le_of_succ_le_succ hb)]

theorem pbkdf2Inner_length (pwd : Bytes) :
    ∀ (n : Nat) (u acc : Bytes), acc.length = 32 →
      (pbkdf2Inner pwd n u acc).length = 32 := by
  intro n
  induction n with
  | zero => intro u acc hacc; simpa [pbkdf2Inner] using hacc
  | succ m ih =>
      intro u acc hacc
      simp only [pbkdf2Inner]
      exact ih _ _ (by simp [xorBytes_length, hacc, hmacSha256_length])

theorem pbkdf2F_length (pwd salt : Bytes) (iters blockIndex : Nat) :
    (pbkdf2F pwd salt iters blockIndex).length = 32 := by
  simp only [pbkdf2F]
  exact pbkdf2Inner_length pwd _ _ _ (hmacSha256_length _ _)

theorem pbkdf2Blocks_length (pwd salt : Bytes) (iters : Nat) :
    ∀ n, (pbkdf2Blocks pwd salt iters n).length = 32 * n := by
  intro n
  induction n with
  | zero => simp [pbkdf2Blocks]
  | succ m ih =>
      simp only [pbkdf2Blocks, List.length_append, ih, pbkdf2F_length]
      ring

theorem pbkdf2HmacSha256_length (pwd salt : Bytes) (iters dkLen : Nat) :
    (pbkdf2HmacSha256 pwd salt iters dkLen).length = dkLen := by
  simp only [pbkdf2HmacSha256, List.length_take, pbkdf2Blocks_length]
  have h := Nat.div_add_mod (dkLen + 31) 32
  have h2 : (dkLen + 31) % 32 < 32 := Nat.mod_lt _ (by decide)
  omega

theorem urlsafe_b64encode_length :
    ∀ l : Bytes, (urlsafe_b64encode l).length = 4 * ((l.length + 2) / 3) := by
  intro l
  induction l using urlsafe_b64encode.induct with
  | case1 => simp [urlsafe_b64encode]
  | case2 a => simp [urlsafe_b64encode]
  | case3 a b => simp [urlsafe_b64encode]
  | case4 a b c rest ih =>
      simp [urlsafe_b64encode, ih]
      have h3 : rest.length + 1 + 1 + 1 + 2 = rest.length + 2 + 3 := by omega
      rw [h3, Nat.add_div_right _ (by decide)]
      generalize (rest.length + 2) / 3 = k
      ring

theorem generate_derived_key_length (salt mp : Bytes) :
    (generate_derived_key (key_derivation_function salt) mp).length = 44 := by
  simp [generate_derived_key, urlsafe_b64encode_length, PBKDF2HMAC.derive,
    key_derivation_function, pbkdf2HmacSha256_length]

theorem keystream_length (kek nonce : Bytes) (n : Nat) :
    (keystream kek nonce n).length = n := by
  simp [keystream]

theorem getD_mem {α : Type} (l : List α) (idx : Nat) (d : α) (hd : d ∈ l) :
    l.getD idx d ∈ l := by
  rw [List.getD_eq_getD_get?]
  cases hq : l.get? idx with
  | none => simpa using hd
  | some x =>
      simp only [Option.getD_some]
      exact List.get?_mem hq

theorem passwordCandidate_subset (picks : Nat → Nat) (t : Nat) :
    ∀ c ∈ passwordCandidate true picks t, c ∈ alphabet true := by
  intro c hc
  simp only [passwordCandidate, List.mem_map, List.mem_range] at hc
  obtain ⟨i, _, rfl⟩ := hc
  exact getD_mem _ _ _ (by decide)

theorem passwordCandidate_not_ok (picks : Nat → Nat) (t : Nat) :
    passwordOk (passwordCandidate true picks t) = false := by
  have hdisj : ∀ c ∈ PASSWORD_SPECIAL_CHARS, ¬ c ∈ alphabet true := by decide
  have hsp : PASSWORD_SPECIAL_CHARS.any
      (fun c => decide (c ∈ passwordCandidate true picks t)) = false := by
    rw [List.any_eq_false]
    intro c hcsp
    simp only [decide_eq_true_eq]
    exact fun hmem => hdisj c hcsp (passwordCandidate_subset picks t c hmem)
  simp [passwordOk, hsp]

/-- C1: unwrapping a wrapped PEK with the same KEK that wrapped it
returns the original raw PEK bytes. -/
theorem c1_unwrap_wrap_roundtrip (kek pek nonce : Bytes) :
    unwrapPEK kek (wrapPEK kek pek nonce) = Except.ok pek := by
  have hct : (xorBytes pek (keystream kek nonce pek.length)).length = pek.length := by
    simp [xorBytes_length, keystream_length]
  simp only [wrapPEK, unwrapPEK]
  rw [if_pos trivial, hct]
  exact congrArg Except.ok
    (xorBytes_cancel pek _ (le_of_eq (keystream_length kek nonce pek.length).symm))

/-- C2: the key derivation is deterministic — building the KDF from equal
salts and deriving from equal master passwords yields equal keys. -/
theorem c2_kdf_deterministic (salt1 salt2 mp1 mp2 : Bytes)
    (hs : salt1 = salt2) (hp : mp1 = mp2) :
    generate_derived_key (key_derivation_function salt1) mp1 =
      generate_derived_key (key_derivation_function salt2) mp2 := by
  subst hs
  subst hp
  rfl

theorem c2_kdf_deterministic_witness :
    generate_derived_key (key_derivation_function [1, 2, 3]) [4, 5] =
      generate_derived_key (key_derivation_function [1, 2, 3]) [4, 5] :=
  c2_kdf_deterministic [1, 2, 3] [1, 2, 3] [4, 5] [4, 5] rfl rfl

/-- C3: counterexample — with no session file and the `add` subcommand,
the code prompts for nothing, runs no KDF, and exits with status 1
instead of authenticating, contradicting the claim that an absent
session leads to a password prompt and key derivation. -/
theorem c3_counterexample :
    (cliInvoke Command.add envMissDemo).promptedMaster = false ∧
      (cliInvoke Command.add envMissDemo).ranKdf = false ∧
      (cliInvoke Command.add envMissDemo).exitCode = some 1 ∧
      (cliInvoke Command.add envMissDemo).ranStoreOp = false :=
  ⟨rfl, rfl, rfl, rfl⟩

/-- C3 (amended): on a session hit, entry subcommands use the cached PEK
with no prompt and no KDF; on a miss they exit with status 1 without
prompting; only the `login` subcommand prompts, ensures the salt,
derives the KEK, then unwraps the PEK (or wraps a fresh one on first
initialization) and stores a session; `logout` clears the session
without cryptographic work. -/
theorem c3_amended (env : Env) (cmd : Command) :
    (cmd ≠ Command.login → cmd ≠ Command.logout →
      ∀ pek, retrieve_session_pek env.sessionFile env.now = some pek →
        (cliInvoke cmd env).promptedMaster = false ∧ (cliInvoke cmd env).ranKdf = false ∧
          (cliInvoke cmd env).ctxPek = some pek ∧ (cliInvoke cmd env).ranStoreOp = true) ∧
    (cmd ≠ Command.login → cmd ≠ Command.logout →
      retrieve_session_pek env.sessionFile env.now = none →
        (cliInvoke cmd env).promptedMaster = false ∧ (cliInvoke cmd env).ranKdf = false ∧
          (cliInvoke cmd env).exitCode = some 1 ∧ (cliInvoke cmd env).ranStoreOp = false) ∧
    (∀ kek, kek = generate_derived_key
        (key_derivation_function ((generate_salt_file env.saltFile env.saltRandom).getD []))
        env.masterPassword →
      (cliInvoke Command.login env).promptedMaster = true ∧
      (cliInvoke Command.login env).ranKdf = true ∧
      (env.pekFile = none →
        (cliInvoke Command.login env).ctxPek = some env.pekRandom ∧
        (cliInvoke Command.login env).pekFileAfter =
          some (wrapPEK kek env.pekRandom env.nonceRandom) ∧
        (cliInvoke Command.login env).sessionFileAfter =
          some (store_session_data env.pekRandom env.now)) ∧
      (∀ w, env.pekFile = some w →
        (∀ pek, retrieve_and_decrypt_pek kek w = some pek →
          (cliInvoke Command.login env).ctxPek = some pek ∧
          (cliInvoke Command.login env).sessionFileAfter =
            some (store_session_data pek env.now) ∧
          (cliInvoke Command.login env).exitCode = none) ∧
        (retrieve_and_decrypt_pek kek w = none →
          (cliInvoke Command.login env).ctxPek = none ∧
          (cliInvoke Command.login env).exitCode = some 1 ∧
          (cliInvoke Command.login env).sessionFileAfter = env.sessionFile))) ∧
    ((cliInvoke Command.logout env).promptedMaster = false ∧
      (cliInvoke Command.logout env).ranKdf = false ∧
      (cliInvoke Command.logout env).sessionFileAfter = none) := by
  refine ⟨?_, ?_, ?_, ?_⟩
  · intro h1 h2 pek hret
    cases cmd <;> simp_all [cliInvoke]
  · intro h1 h2 hret
    cases cmd <;> simp_all [cliInvoke]
  · intro kek hkek
    subst hkek
    rcases hpf : env.pekFile with _ | w
    · refine ⟨by simp [cliInvoke, hpf], by simp [cliInvoke, hpf], ?_, ?_⟩
      · intro _
        exact ⟨by simp [cliInvoke, hpf], by simp [cliInvoke, hpf], by simp [cliInvoke, hpf]⟩
      · intro w hw
        exact absurd hw (by simp)
    · rcases hr : retrieve_and_decrypt_pek
          (generate_derived_key
            (key_derivation_function ((generate_salt_file env.saltFile env.saltRandom).getD []))
            env.masterPassword) w with _ | pek0
      · refine ⟨by simp [cliInvoke, hpf, hr], by simp [cliInvoke, hpf, hr], ?_, ?_⟩
        · intro hnone
          exact absurd hnone (by simp)
        · intro w2 hw2
          injection hw2 with hw2
          subst hw2
          refine ⟨?_, ?_⟩
          · intro pek hpek
            rw [hr] at hpek
            exact absurd hpek (by simp)
          · intro _
            exact ⟨by simp [cliInvoke, hpf, hr], by simp [cliInvoke, hpf, hr],
              by simp [cliInvoke, hpf, hr]⟩
      · refine ⟨by simp [cliInvoke, hpf, hr], by simp [cliInvoke, hpf, hr], ?_, ?_⟩
        · intro hnone
          exact absurd hnone (by simp)
        · intro w2 hw2
          injection hw2 with hw2
          subst hw2
          refine ⟨?_, ?_⟩
          · intro pek hpek
            rw [hr] at hpek
            injection hpek with hpek
            subst hpek
            exact ⟨by simp [cliInvoke, hpf, hr], by simp [cliInvoke, hpf, hr],
              by simp [cliInvoke, hpf, hr]⟩
          · intro hcontra
            rw [hr] at hcontra
            exact absurd hcontra (by simp)
  · exact ⟨by simp [cliInvoke], by simp [cliInvoke], by simp [cliInvoke, clear_session_data]⟩

theorem c3_amended_witness :
    (cliInvoke Command.view envHitDemo).promptedMaster = false ∧
      (cliInvoke Command.add envMissDemo).exitCode = some 1 ∧
      (cliInvoke Command.login envMissDemo).promptedMaster = true ∧
      (cliInvoke Command.login envMissDemo).sessionFileAfter =
        some (store_session_data [] 0) :=
  ⟨((c3_amended envHitDemo Command.view).1 (by decide) (by decide) [1, 2, 3] (by decide)).1,
   ((c3_amended envMissDemo Command.add).2.1 (by decide) (by decide) (by decide)).2.2.1,
   ((c3_amended envMissDemo Command.login).2.2.1 _ rfl).1,
   (((c3_amended envMissDemo Command.login).2.2.1 _ rfl).2.2.1 rfl).2.2⟩

/-- C4: salt creation is idempotent — an existing salt file is left
byte-for-byte unchanged, and a missing one is created with exactly the
16 random bytes the OS supplied. -/
theorem c4_salt_idempotent (saltFile : Option Bytes) (rnd : Bytes)
    (hr : rnd.length = 16) :
    (∀ s, saltFile = some s → generate_salt_file saltFile rnd = some s) ∧
      (saltFile = none →
        ∃ s, generate_salt_file saltFile rnd = some s ∧ s.length = 16) := by
  constructor
  · intro s hs
    subst hs
    rfl
  · intro hn
    subst hn
    exact ⟨rnd, rfl, hr⟩

theorem c4_salt_idempotent_witness :
    generate_salt_file (some [7]) (List.replicate 16 0) = some [7] ∧
      ∃ s, generate_salt_file none (List.replicate 16 0) = some s ∧ s.length = 16 :=
  ⟨(c4_salt_idempotent (some [7]) (List.replicate 16 0) (by decide)).1 [7] rfl,
   (c4_salt_idempotent none (List.replicate 16 0) (by decide)).2 rfl⟩

/-- C5: with the timeout fixed at 3600 seconds, a PEK stored at time `T`
is returned at `T + 3600 − 1` and absent at `T + 3600 + 1`; any record
whose age reaches the timeout is treated as absent even though the file
exists. -/
theorem c5_session_timeout_boundary (pek : Bytes) (T : Nat) (r : SessionRecord)
    (now : Nat) (hstale : SESSION_TIMEOUT_SECONDS ≤ now - r.issuedAt) :
    retrieve_session_pek (some (store_session_data pek T))
        (T + SESSION_TIMEOUT_SECONDS - 1) = some pek ∧
      retrieve_session_pek (some (store_session_data pek T))
        (T + SESSION_TIMEOUT_SECONDS + 1) = none ∧
      retrieve_session_pek (some r) now = none := by
  refine ⟨?_, ?_, ?_⟩
  · simp only [retrieve_session_pek, store_session_data, SESSION_TIMEOUT_SECONDS]
    rw [if_neg (by omega)]
  · simp only [retrieve_session_pek, store_session_data, SESSION_TIMEOUT_SECONDS]
    rw [if_pos (by omega)]
  · simp only [retrieve_session_pek]
    rw [if_pos hstale]

theorem c5_session_timeout_boundary_witness :
    retrieve_session_pek (some (store_session_data [1] 5))
        (5 + SESSION_TIMEOUT_SECONDS - 1) = some [1] ∧
      retrieve_session_pek (some (store_session_data [1] 5))
        (5 + SESSION_TIMEOUT_SECONDS + 1) = none ∧
      retrieve_session_pek (some { pek := [2], issuedAt := 0 }) 3600 = none :=
  c5_session_timeout_boundary [1] 5 { pek := [2], issuedAt := 0 } 3600 (by decide)

/-- C6: after a successful add of a service name, a second add with the
same name fails with `DuplicateEntry`, and the store from the first add
still contains the first record unchanged. -/
theorem c6_add_duplicate (store store1 : Store)
    (name user pw url note : String) (now : Nat)
    (user2 pw2 url2 note2 : String) (now2 : Nat)
    (h : add_entry store name user pw url note now = Except.ok store1) :
    add_entry store1 name user2 pw2 url2 note2 now2 =
        Except.error DBError.DuplicateEntry ∧
      ({ service_name := name, username := user, password := pw, url := url,
         note := note, created_at := now, updated_at := now } : VaultEntry) ∈ store1 := by
  unfold add_entry at h
  by_cases hv : validate_service_name store name
  · rw [if_pos hv] at h
    exact absurd h (by simp)
  · rw [if_neg hv] at h
    injection h with h1
    subst h1
    constructor
    · have hval : validate_service_name
          (store ++ [{ service_name := name, username := user, password := pw, url := url,
                       note := note, created_at := now, updated_at := now }]) name = true := by
        simp [validate_service_name]
      unfold add_entry
      rw [if_pos hval]
    · simp

theorem c6_add_duplicate_witness :
    add_entry [{ service_name := "svc", username := "u", password := "p", url := "x",
                 note := "y", created_at := 0, updated_at := 0 }]
        "svc" "u2" "p2" "x2" "y2" 1 = Except.error DBError.DuplicateEntry ∧
      ({ service_name := "svc", username := "u", password := "p", url := "x", note := "y",
         created_at := 0, updated_at := 0 } : VaultEntry) ∈
        [({ service_name := "svc", username := "u", password := "p", url := "x", note := "y",
            created_at := 0, updated_at := 0 } : VaultEntry)] :=
  c6_add_duplicate [] _ "svc" "u" "p" "x" "y" 0 "u2" "p2" "x2" "y2" 1 rfl

/-- C7: `update` changes only the matching row's password and
`updated_at`; its other columns and every other row are unchanged, and
the store keeps its length. -/
theorem c7_update_frame (store : Store) (name pw : String) (now : Nat) (i : Nat)
    (h : i < store.length) (h2 : i < (update_entry store name pw now).length) :
    (update_entry store name pw now).length = store.length ∧
    ((update_entry store name pw now).get ⟨i, h2⟩).service_name =
        (store.get ⟨i, h⟩).service_name ∧
    ((update_entry store name pw now).get ⟨i, h2⟩).username = (store.get ⟨i, h⟩).username ∧
    ((update_entry store name pw now).get ⟨i, h2⟩).url = (store.get ⟨i, h⟩).url ∧
    ((update_entry store name pw now).get ⟨i, h2⟩).note = (store.get ⟨i, h⟩).note ∧
    ((update_entry store name pw now).get ⟨i, h2⟩).created_at =
        (store.get ⟨i, h⟩).created_at ∧
    ((store.get ⟨i, h⟩).service_name ≠ name →
      (update_entry store name pw now).get ⟨i, h2⟩ = store.get ⟨i, h⟩) ∧
    ((store.get ⟨i, h⟩).service_name = name →
      ((update_entry store name pw now).get ⟨i, h2⟩).password = pw ∧
      ((update_entry store name pw now).get ⟨i, h2⟩).updated_at = now) := by
  simp only [List.get_eq_getElem, update_entry, List.getElem_map, List.length_map]
  by_cases hn : store[i].service_name = name
  · simp [hn]
  · simp [hn]

theorem c7_update_frame_witness :
    ((update_entry demoStore "svc" "npw" 9).get ⟨0, by decide⟩).password = "npw" ∧
      ((update_entry demoStore "svc" "npw" 9).get ⟨0, by decide⟩).updated_at = 9 ∧
      ((update_entry demoStore "svc" "npw" 9).get ⟨0, by decide⟩).username = "u" :=
  ⟨((c7_update_frame demoStore "svc" "npw" 9 0 (by decide) (by decide)).2.2.2.2.2.2.2 rfl).1,
   ((c7_update_frame demoStore "svc" "npw" 9 0 (by decide) (by decide)).2.2.2.2.2.2.2 rfl).2,
   (c7_update_frame demoStore "svc" "npw" 9 0 (by decide) (by decide)).2.2.1⟩

/-- C8: counterexample — the value produced by `generate_derived_key`,
which is what the login flow passes as the KEK, is not 32 bytes long. -/
theorem c8_counterexample :
    (generate_derived_key (key_derivation_function [0]) [1]).length ≠ 32 := by
  rw [generate_derived_key_length]
  decide

/-- C8 (amended): the PBKDF2 derivation itself outputs exactly 32 bytes,
and `generate_derived_key` returns its url-safe base64 encoding, which
is 44 bytes long — that 44-byte value is the KEK the login flow uses. -/
theorem c8_amended (salt mp : Bytes) :
    ((key_derivation_function salt).derive mp).length = 32 ∧
      (generate_derived_key (key_derivation_function salt) mp).length = 44 :=
  ⟨by simp [PBKDF2HMAC.derive, key_derivation_function, pbkdf2HmacSha256_length],
   generate_derived_key_length salt mp⟩

/-- C9: evaluation at the failing input — the direct write of the salt
file passes through a state where a truncated, 8-byte salt sits at the
final path, which the claimed write-to-temporary-then-rename scheme
would make impossible. -/
theorem c9_truncated_write_state :
    some ((List.replicate 16 7).take 8) ∈
        generate_salt_file_write_states none (List.replicate 16 7) ∧
      ((List.replicate 16 7).take 8).length ≠ 16 := by
  constructor
  · decide
  · decide

/-- C10: evaluation at the failing input — with
`without_special_chars = True` every candidate is drawn from letters and
digits only, so the loop's special-character requirement never holds and
the generator returns nothing for any amount of fuel: the `while True`
loop never terminates. -/
theorem c10_no_special_never_succeeds (picks : Nat → Nat) (fuel t : Nat) :
    password_generator_fuel true picks fuel t = none := by
  induction fuel generalizing t with
  | zero => rfl
  | succ n ih => simp [password_generator_fuel, passwordCandidate_not_ok, ih]

end PassMan
